import Mathlib

/-!
Shallow embedding of the PrixFixe attribute-matrix and cart subsystem.

Embedded source files:
* `src/attributes/matrix_entity_builder.ts` — the `MatrixEntityBuilder` class.
* `src/rule_checker/...` (unnamed part_000) — `ValidChildTensor` and
  `childTensorFactory`.
* `src/cart/interfaces.ts` — `ItemInstance`, `Cart` and the `ICartOps`
  operation contracts.

The `Matrix` class, the `AttributeInfo` collaborator and the `CartUtils`
implementation of `ICartOps` are not part of the available source; where a
claim needs them they are modelled from the spec, and each such definition
carries a doc comment saying so.

TypeScript `throw` is embedded as `Except.error`; a method that mutates
`this` becomes a function returning the result paired with the post-state,
so that the post-state on a thrown error is observable.
-/

namespace PrixFixe

/-- Product id of a generic entity (TS type alias `PID`). -/
abbrev PID := Nat

/-- Attribute id (TS type alias `AID`). -/
abbrev AID := Nat

/-- Canonical or pattern-form entity key (TS type alias `KEY` / `Key`). -/
abbrev KEY := String

/-- Unique instance identifier of a cart item (TS type alias `UID`). -/
abbrev UID := Nat

/-- Modelled from the spec: a Dimension has a stable numeric id and an
ordered set of mutually exclusive AIDs (the `Dimension` type is imported by
the source but not itself among the source files). Only the `id` field is
consumed by the embedded code. -/
structure Dimension where
  id : Nat
  attributes : List AID
deriving Repr, DecidableEq

/-- Modelled from the spec: a Coordinate is the (dimension,
position-within-dimension) location of one AID. -/
structure Coordinate where
  dimension : Dimension
  position : Nat
deriving Repr, DecidableEq

/-- Modelled from the spec: a Matrix is constructed with the total count and
the ordered list of dimensions an entity varies over (the `Matrix` class is
imported by the source but not itself among the source files). -/
structure Matrix where
  count : Nat
  dimensions : List Dimension
deriving Repr, DecidableEq

/-- Modelled from the spec: `hasDimension(dimensionId)` is the membership
test for the dimensions the Matrix declares. -/
def Matrix.hasDimension (m : Matrix) (did : Nat) : Bool :=
  m.dimensions.any (fun d => d.id == did)

/-- Modelled from the spec: the `AttributeInfo` collaborator exposes
`getAttributeCoordinates(aid) -> Coordinate|undefined` and
`getMatrixForEntity(pid) -> Matrix|undefined`. -/
structure AttributeInfo where
  getAttributeCoordinates : AID → Option Coordinate
  getMatrixForEntity : PID → Option Matrix

/-- Modelled from the spec: the token a Matrix serializes for one of its
dimensions — the position of the caller-supplied AID for that dimension, or
the wildcard marker `\d+` when the dimension is unspecified. -/
def dimensionToken (assign : List (Nat × AID)) (info : AttributeInfo)
    (d : Dimension) : String :=
  match assign.lookup d.id with
  | some aid =>
    match info.getAttributeCoordinates aid with
    | some c => toString c.position
    | none => "\\d+"
  | none => "\\d+"

/-- Modelled from the spec: `Matrix.getKey(pid, dimensionIdToAttribute,
attributeInfo)` concatenates the PID and the per-dimension tokens, in the
Matrix's fixed dimension order, into the canonical key string. -/
def Matrix.getKey (m : Matrix) (pid : PID) (assign : List (Nat × AID))
    (info : AttributeInfo) : KEY :=
  m.dimensions.foldl (fun acc d => acc ++ ":" ++ dimensionToken assign info d)
    (toString pid)

/-- Errors thrown by `MatrixEntityBuilder.setPID` and
`MatrixEntityBuilder.addAttribute` (both are `TypeError`s in the source; the
constructor records the data interpolated into the message). -/
inductive BuilderError where
  /-- Thrown by `setPID`: `attempting to overwrite entity <existing> with
  <incoming>`. -/
  | OverwriteError (existing incoming : PID)
  /-- Thrown by `addAttribute`: `unknown attribute <aid>.` -/
  | UnknownAttribute (aid : AID)
deriving Repr, DecidableEq

/-- Failure outcomes of `MatrixEntityBuilder.getKey`. -/
inductive GetKeyFailure where
  /-- The deliberate `TypeError('no pid set')` thrown when no PID is set. -/
  | NoPIDSet
  /-- The runtime `TypeError` raised by invoking `.getKey` on the
  `undefined` result of `getMatrixForEntity(pid)` — the source performs this
  call unguarded. -/
  | MissingMatrixCrash (pid : PID)
deriving Repr, DecidableEq

/-- State of a `MatrixEntityBuilder` (src/attributes/matrix_entity_builder.ts):
an `AttributeInfo`, an optional `pid`, and the `dimensionIdToAttribute`
map. The JS `Map` is embedded as an insertion-ordered association list:
`addAttribute` only ever calls `set` on an absent key, so insertion is an
append, and iteration order is list order. -/
structure MatrixEntityBuilder where
  info : AttributeInfo
  pid : Option PID := none
  dimensionIdToAttribute : List (Nat × AID) := []

/-- Embeds `MatrixEntityBuilder.hasPID`. -/
def MatrixEntityBuilder.hasPID (b : MatrixEntityBuilder) : Bool :=
  b.pid.isSome

/-- Embeds `MatrixEntityBuilder.setPID` (lines 27–37): returns `true` when
the pid was unset; otherwise throws the overwrite `TypeError` naming the
existing and incoming pid, leaving the state untouched. -/
def MatrixEntityBuilder.setPID (b : MatrixEntityBuilder) (pid : PID) :
    Except BuilderError Bool × MatrixEntityBuilder :=
  match b.pid with
  | none => (Except.ok true, { b with pid := some pid })
  | some existing => (Except.error (BuilderError.OverwriteError existing pid), b)

/-- Embeds `MatrixEntityBuilder.addAttribute` (lines 39–53): throws on an
unregistered AID; returns `false` without modifying state when the AID's
dimension already holds an attribute; otherwise records the AID for the
dimension and returns `true`. -/
def MatrixEntityBuilder.addAttribute (b : MatrixEntityBuilder)
    (attributeID : AID) : Except BuilderError Bool × MatrixEntityBuilder :=
  match b.info.getAttributeCoordinates attributeID with
  | none => (Except.error (BuilderError.UnknownAttribute attributeID), b)
  | some coordinate =>
    if (b.dimensionIdToAttribute.lookup coordinate.dimension.id).isSome then
      (Except.ok false, b)
    else
      (Except.ok true,
        { b with dimensionIdToAttribute :=
            b.dimensionIdToAttribute ++ [(coordinate.dimension.id, attributeID)] })

/-- Embeds `MatrixEntityBuilder.getKey` (lines 55–68): throws `no pid set`
when the pid is `undefined`; otherwise fetches the entity's matrix and calls
`matrix.getKey` on it unguarded — when `getMatrixForEntity` yields
`undefined` that call is the runtime crash `MissingMatrixCrash`. -/
def MatrixEntityBuilder.getKey (b : MatrixEntityBuilder) :
    Except GetKeyFailure KEY :=
  match b.pid with
  | none => Except.error GetKeyFailure.NoPIDSet
  | some pid =>
    match b.info.getMatrixForEntity pid with
    | none => Except.error (GetKeyFailure.MissingMatrixCrash pid)
    | some matrix => Except.ok (matrix.getKey pid b.dimensionIdToAttribute b.info)

/-- Embeds `MatrixEntityBuilder.getUnusedAttributes` (lines 74–93): with the
entity's matrix when the pid is set and the entity has one, and the empty
matrix `new Matrix(0, [])` otherwise, yields the collected AIDs whose
dimension the matrix lacks, in collection (map-iteration) order. -/
def MatrixEntityBuilder.getUnusedAttributes (b : MatrixEntityBuilder) :
    List AID :=
  let matrix : Matrix :=
    match b.pid with
    | some pid =>
      match b.info.getMatrixForEntity pid with
      | some m => m
      | none => Matrix.mk 0 []
    | none => Matrix.mk 0 []
  (b.dimensionIdToAttribute.filter (fun e => ! matrix.hasDimension e.1)).map
    (fun e => e.2)

/-- One rule of a rule configuration. Modelled from the spec: each rule is a
record `{ partialKey: string, ... }`; only `partialKey` is consumed by
`childTensorFactory`, embedded here as the field `pkey` (the TS name ends in
a reserved word of this development). The `RuleConfig` type lives in a
source file that is not available. -/
structure Rule where
  pkey : KEY
deriving Repr, DecidableEq

/-- Modelled from the spec: a RuleConfig is an ordered set of rules. -/
structure RuleConfig where
  rules : List Rule

/-- Embeds `ValidChildPredicate`: given a candidate child KEY, is the child
valid at the tensor coordinate? -/
abbrev ValidChildPredicate := KEY → Bool

/-- Embeds `ValidChildTensor`: a JS object mapping each partial key to a
`ValidChildPredicate`, embedded as an insertion-ordered association list. -/
abbrev ValidChildTensor := List (KEY × ValidChildPredicate)

/-- JS property assignment `tensor[k] = p`: overwrite the entry for `k` in
place when present, append it otherwise. -/
def tensorSet (t : ValidChildTensor) (k : KEY) (p : ValidChildPredicate) :
    ValidChildTensor :=
  if (t.lookup k).isSome then
    t.map (fun e => if e.1 = k then (k, p) else e)
  else
    t ++ [(k, p)]

/-- The predicate `childTensorFactory` installs for a rule: the literal
`(child: KEY): boolean => { return false; }` of the source (the factory is
marked TODO and rejects every child). -/
def rulePredicate (_ : Rule) : ValidChildPredicate :=
  fun _ => false

/-- Embeds `childTensorFactory` (unnamed part_000, lines 22–33): for each
rule of the rule set, in order, assign `rulePredicate` to the rule's partial
key in the tensor. -/
def childTensorFactory (ruleSet : RuleConfig) : ValidChildTensor :=
  ruleSet.rules.foldl (fun t rule => tensorSet t rule.pkey (rulePredicate rule))
    []

/-- Modelled from the spec: consultation of the child-validity tensor by its
callers (`findCompatibleParent` is not among the available source files) — a
candidate child is legal at a coordinate when the tensor holds no predicate
for it (default-permit) and is otherwise judged by the installed
predicate. -/
def legalAt (t : ValidChildTensor) (k : KEY) (child : KEY) : Bool :=
  match t.lookup k with
  | none => true
  | some p => p child

/-- Embeds `ItemInstance` (src/cart/interfaces.ts, lines 23–28): uid, key,
quantity and the ordered child items. -/
inductive ItemInstance where
  | mk (uid : UID) (key : KEY) (quantity : Nat) (children : List ItemInstance)

/-- Field accessor for `ItemInstance.uid`. -/
def ItemInstance.uid : ItemInstance → UID
  | ItemInstance.mk u _ _ _ => u

/-- Field accessor for `ItemInstance.key`. -/
def ItemInstance.key : ItemInstance → KEY
  | ItemInstance.mk _ k _ _ => k

/-- Embeds `Cart` (src/cart/interfaces.ts, lines 39–41): the ordered
sequence of top-level ItemInstances. -/
structure Cart where
  items : List ItemInstance

/-- Modelled from the spec: `removeFromCart(cart, uid)` — the `CartUtils`
implementation is not among the available source files; the declared
contract (interfaces.ts lines 200–204) returns a shallow copy of the cart
omitting the item with the given UID. -/
def removeFromCart (cart : Cart) (uid : UID) : Cart :=
  Cart.mk (cart.items.filter (fun item => item.uid != uid))

/-- Modelled from the spec: `replaceInCart(cart, item)` — the `CartUtils`
implementation is not among the available source files; the declared
contract (interfaces.ts lines 189–193) returns a shallow copy of the cart
in which the item sharing the new item's UID is replaced by the new item,
in place of order. The declared return type is a plain `Cart`: the
signature carries no failure channel. -/
def replaceInCart (cart : Cart) (item : ItemInstance) : Cart :=
  Cart.mk (cart.items.map (fun it => if it.uid == item.uid then item else it))

/-! Concrete catalog fixture, following the spec's cone scenario: entity 1
("cone") varies over dimension 0 ("size", attributes 10/11/12) and dimension
1 ("flavor", attributes 20/21); entity 2 has the zero-dimension matrix;
entity 3 resolves to no matrix. -/

/-- Fixture dimension "size" (id 0, attributes small=10, medium=11, large=12). -/
def sizeDim : Dimension := Dimension.mk 0 [10, 11, 12]

/-- Fixture dimension "flavor" (id 1, attributes vanilla=20, chocolate=21). -/
def flavorDim : Dimension := Dimension.mk 1 [20, 21]

/-- Fixture matrix of entity 1, varying over size then flavor. -/
def coneMatrix : Matrix := Matrix.mk 2 [sizeDim, flavorDim]

/-- Fixture attribute table for the cone scenario. -/
def infoTest : AttributeInfo where
  getAttributeCoordinates := fun aid =>
    if aid = 10 then some (Coordinate.mk sizeDim 0)
    else if aid = 11 then some (Coordinate.mk sizeDim 1)
    else if aid = 12 then some (Coordinate.mk sizeDim 2)
    else if aid = 20 then some (Coordinate.mk flavorDim 0)
    else if aid = 21 then some (Coordinate.mk flavorDim 1)
    else none
  getMatrixForEntity := fun pid =>
    if pid = 1 then some coneMatrix
    else if pid = 2 then some (Matrix.mk 0 [])
    else none

/-- Fresh builder over the fixture table. -/
def builder0 : MatrixEntityBuilder := MatrixEntityBuilder.mk infoTest none []

/-- Fixture builder holding the size attribute `small` (dimension 0 filled). -/
def bC1 : MatrixEntityBuilder := MatrixEntityBuilder.mk infoTest none [(0, 10)]

/-- Fixture builder with pid 1 (cone) and the size attribute collected. -/
def bPid1 : MatrixEntityBuilder :=
  MatrixEntityBuilder.mk infoTest (some 1) [(0, 10)]

/-- Fixture builder with pid 2, whose matrix has zero dimensions. -/
def bPid2 : MatrixEntityBuilder := MatrixEntityBuilder.mk infoTest (some 2) []

/-- Fixture builder with pid 3, which resolves to no matrix. -/
def bPid3 : MatrixEntityBuilder := MatrixEntityBuilder.mk infoTest (some 3) []

/-- Fixture builder with pid already set to 5. -/
def bSet5 : MatrixEntityBuilder := MatrixEntityBuilder.mk infoTest (some 5) []

/-- Fixture builder with no pid and two collected attributes. -/
def bNoPid : MatrixEntityBuilder :=
  MatrixEntityBuilder.mk infoTest none [(0, 10), (1, 21)]

/-- Fixture builder with pid 1 and one attribute on a dimension (7) the cone
matrix does not declare. -/
def bMix : MatrixEntityBuilder :=
  MatrixEntityBuilder.mk infoTest (some 1) [(0, 10), (7, 42)]

/-- Fixture rule configuration with a duplicated partial key. -/
def rcW : RuleConfig :=
  RuleConfig.mk [Rule.mk "1:*", Rule.mk "2:0", Rule.mk "1:*"]

/-- Fixture cart item with uid 7. -/
def item7 : ItemInstance := ItemInstance.mk 7 "1:0:1" 1 []

/-- Fixture cart item with uid 8. -/
def item8 : ItemInstance := ItemInstance.mk 8 "1:0:0" 2 []

/-- Fixture cart item with uid 9, absent from the fixture cart. -/
def item9 : ItemInstance := ItemInstance.mk 9 "2" 1 []

/-- Fixture cart holding items 7 and 8, in that order. -/
def cartW : Cart := Cart.mk [item7, item8]

/-! Association-list lemmas used throughout (the JS `Map` and object
embeddings are insertion-ordered association lists). -/

theorem lookup_cons_ne {α β : Type} [BEq α] [LawfulBEq α] (t : List (α × β))
    (a k : α) (v : β) (h : a ≠ k) : ((k, v) :: t).lookup a = t.lookup a := by
  simp [List.lookup, beq_false_of_ne h]

theorem lookup_append_self {α β : Type} [BEq α] [LawfulBEq α]
    (l : List (α × β)) (k : α) (v : β) (h : l.lookup k = none) :
    (l ++ [(k, v)]).lookup k = some v := by
  induction l with
  | nil => simp [List.lookup]
  | cons e t ih =>
    obtain ⟨k1, v1⟩ := e
    by_cases hk : k = k1
    · subst hk
      simp [List.lookup] at h
    · rw [List.cons_append, lookup_cons_ne _ _ _ _ hk]
      rw [lookup_cons_ne _ _ _ _ hk] at h
      exact ih h

theorem lookup_append_ne {α β : Type} [BEq α] [LawfulBEq α]
    (l : List (α × β)) (a k : α) (v : β) (h : a ≠ k) :
    (l ++ [(k, v)]).lookup a = l.lookup a := by
  induction l with
  | nil => simp [List.lookup, beq_false_of_ne h]
  | cons e t ih =>
    obtain ⟨k1, v1⟩ := e
    by_cases hk : a = k1
    · subst hk
      simp [List.lookup]
    · rw [List.cons_append, lookup_cons_ne _ _ _ _ hk, lookup_cons_ne _ _ _ _ hk]
      exact ih

/-- C1: `addAttribute` fails with `UnknownAttribute` when the attribute
table holds no coordinate for the AID; when the builder already holds an
attribute for the AID's dimension it returns `false` ("not added") and the
builder is unchanged; otherwise it records the AID for that dimension —
leaving the pid and every other dimension untouched — and returns `true`
(first-writer-wins per dimension). -/
theorem C1_addAttribute_first_writer_wins (b : MatrixEntityBuilder)
    (aid : AID) :
    (b.info.getAttributeCoordinates aid = none →
      b.addAttribute aid =
        (Except.error (BuilderError.UnknownAttribute aid), b)) ∧
    (∀ c, b.info.getAttributeCoordinates aid = some c →
      ((b.dimensionIdToAttribute.lookup c.dimension.id).isSome →
        b.addAttribute aid = (Except.ok false, b)) ∧
      (b.dimensionIdToAttribute.lookup c.dimension.id = none →
        (b.addAttribute aid).1 = Except.ok true ∧
        (b.addAttribute aid).2.pid = b.pid ∧
        (b.addAttribute aid).2.dimensionIdToAttribute.lookup c.dimension.id =
          some aid ∧
        (∀ d, d ≠ c.dimension.id →
          (b.addAttribute aid).2.dimensionIdToAttribute.lookup d =
            b.dimensionIdToAttribute.lookup d))) := by
  constructor
  · intro h
    simp [MatrixEntityBuilder.addAttribute, h]
  · intro c hc
    constructor
    · intro hs
      simp [MatrixEntityBuilder.addAttribute, hc, hs]
    · intro hn
      have hcond : (b.dimensionIdToAttribute.lookup c.dimension.id).isSome =
          false := by
        rw [hn]
        rfl
      simp only [MatrixEntityBuilder.addAttribute, hc, hcond, Bool.false_eq_true,
        if_false]
      refine ⟨trivial, trivial, lookup_append_self _ _ _ hn, fun d hd => ?_⟩
      exact lookup_append_ne _ _ _ _ hd

/-- Witness for C1 at the fixture: unknown AID 99 throws; AID 11 (medium)
is rejected because dimension 0 already holds small; AID 21 (chocolate) is
added for dimension 1 while dimension 0 keeps small. -/
theorem C1_addAttribute_first_writer_wins_witness :
    bC1.addAttribute 99 =
      (Except.error (BuilderError.UnknownAttribute 99), bC1) ∧
    bC1.addAttribute 11 = (Except.ok false, bC1) ∧
    (bC1.addAttribute 21).1 = Except.ok true ∧
    (bC1.addAttribute 21).2.dimensionIdToAttribute.lookup 1 = some 21 ∧
    (bC1.addAttribute 21).2.dimensionIdToAttribute.lookup 0 = some 10 :=
  have h1 := (C1_addAttribute_first_writer_wins bC1 99).1 rfl
  have h2 := ((C1_addAttribute_first_writer_wins bC1 11).2
    (Coordinate.mk sizeDim 1) rfl).1 rfl
  have h3 := ((C1_addAttribute_first_writer_wins bC1 21).2
    (Coordinate.mk flavorDim 1) rfl).2 rfl
  ⟨h1, h2, h3.1, h3.2.2.1, (h3.2.2.2 0 (by decide)).trans rfl⟩

/-- C2: on a builder with no pid the first `setPID` succeeds (returns
`true`), and any subsequent `setPID` — with the same or a different pid —
fails with the `OverwriteError` naming both the existing and the incoming
pid. -/
theorem C2_setPID_once (b : MatrixEntityBuilder) (p1 p2 : PID)
    (h : b.pid = none) :
    (b.setPID p1).1 = Except.ok true ∧
    ((b.setPID p1).2).pid = some p1 ∧
    (((b.setPID p1).2).setPID p2).1 =
      Except.error (BuilderError.OverwriteError p1 p2) := by
  simp [MatrixEntityBuilder.setPID, h]

/-- Witness for C2 at the fixture: setting pid 5 on a fresh builder
succeeds; re-setting pid 5 (the same value) and pid 7 both fail with the
respective overwrite errors. -/
theorem C2_setPID_once_witness :
    (builder0.setPID 5).1 = Except.ok true ∧
    ((builder0.setPID 5).2.setPID 5).1 =
      Except.error (BuilderError.OverwriteError 5 5) ∧
    ((builder0.setPID 5).2.setPID 7).1 =
      Except.error (BuilderError.OverwriteError 5 7) :=
  ⟨(C2_setPID_once builder0 5 5 rfl).1,
   (C2_setPID_once builder0 5 5 rfl).2.2,
   (C2_setPID_once builder0 5 7 rfl).2.2⟩

/-- C3: `getKey` fails with `NoPIDSet` exactly when no pid is set; when a
pid is set and the attribute table resolves its matrix, `getKey` returns
the key that matrix produces from the collected dimension-to-attribute
assignments, and a zero-dimension matrix yields the bare-PID key. -/
theorem C3_getKey_contract (b : MatrixEntityBuilder) :
    (b.getKey = Except.error GetKeyFailure.NoPIDSet ↔ b.pid = none) ∧
    (∀ p m, b.pid = some p → b.info.getMatrixForEntity p = some m →
      b.getKey = Except.ok (m.getKey p b.dimensionIdToAttribute b.info) ∧
      (m.dimensions = [] → b.getKey = Except.ok (toString p))) := by
  constructor
  · cases hb : b.pid with
    | none => simp [MatrixEntityBuilder.getKey, hb]
    | some p =>
      simp only [MatrixEntityBuilder.getKey, hb]
      constructor
      · intro h
        cases hm : b.info.getMatrixForEntity p with
        | none => rw [hm] at h; simp at h
        | some m => rw [hm] at h; simp at h
      · intro h
        simp at h
  · intro p m hp hm
    constructor
    · simp [MatrixEntityBuilder.getKey, hp, hm]
    · intro hdim
      simp [MatrixEntityBuilder.getKey, hp, hm, Matrix.getKey, hdim]

/-- Witness for C3 at the fixture: a fresh builder throws `no pid set`;
pid 2 with the zero-dimension matrix yields the bare key `"2"`; pid 1 with
the cone matrix yields that matrix's key for the collected size choice. -/
theorem C3_getKey_contract_witness :
    builder0.getKey = Except.error GetKeyFailure.NoPIDSet ∧
    bPid2.getKey = Except.ok "2" ∧
    bPid1.getKey = Except.ok (coneMatrix.getKey 1 [(0, 10)] infoTest) :=
  ⟨(C3_getKey_contract builder0).1.mpr rfl,
   ((C3_getKey_contract bPid2).2 2 (Matrix.mk 0 []) rfl rfl).2 rfl,
   ((C3_getKey_contract bPid1).2 1 coneMatrix rfl rfl).1⟩

/-- C9: when a pid is set but the attribute table resolves no matrix for
it, `getKey` neither signals `NoPIDSet` nor returns a key — it performs the
unguarded `matrix.getKey` call on the absent matrix, i.e. the runtime crash
`MissingMatrixCrash`. -/
theorem C9_getKey_missing_matrix_unchecked (b : MatrixEntityBuilder)
    (p : PID) (h1 : b.pid = some p)
    (h2 : b.info.getMatrixForEntity p = none) :
    b.getKey = Except.error (GetKeyFailure.MissingMatrixCrash p) ∧
    b.getKey ≠ Except.error GetKeyFailure.NoPIDSet ∧
    ∀ k, b.getKey ≠ Except.ok k := by
  have hk : b.getKey = Except.error (GetKeyFailure.MissingMatrixCrash p) := by
    simp [MatrixEntityBuilder.getKey, h1, h2]
  refine ⟨hk, by simp [hk], fun k => by simp [hk]⟩

/-- Witness for C9 at the fixture: pid 3 resolves to no matrix, and
`getKey` crashes rather than signalling a builder error or returning a
key. -/
theorem C9_getKey_missing_matrix_unchecked_witness :
    bPid3.getKey = Except.error (GetKeyFailure.MissingMatrixCrash 3) ∧
    bPid3.getKey ≠ Except.error GetKeyFailure.NoPIDSet ∧
    bPid3.getKey ≠ Except.ok "3" :=
  have h := C9_getKey_missing_matrix_unchecked bPid3 3 rfl rfl
  ⟨h.1, h.2.1, h.2.2 "3"⟩

/-- C10: failing builder operations are atomic — when `setPID` throws its
overwrite error or `addAttribute` throws on an unknown AID, the builder
state after the call is exactly the state before it. -/
theorem C10_failing_ops_atomic (b : MatrixEntityBuilder) (p : PID)
    (aid : AID) (e1 e2 : BuilderError) :
    ((b.setPID p).1 = Except.error e1 → (b.setPID p).2 = b) ∧
    ((b.addAttribute aid).1 = Except.error e2 →
      (b.addAttribute aid).2 = b) := by
  constructor
  · intro h
    cases hb : b.pid with
    | none => simp [MatrixEntityBuilder.setPID, hb] at h
    | some q => simp [MatrixEntityBuilder.setPID, hb]
  · intro h
    cases hc : b.info.getAttributeCoordinates aid with
    | none => simp [MatrixEntityBuilder.addAttribute, hc]
    | some c =>
      by_cases hs : (b.dimensionIdToAttribute.lookup c.dimension.id).isSome
      · simp [MatrixEntityBuilder.addAttribute, hc, hs] at h
      · simp [MatrixEntityBuilder.addAttribute, hc, hs] at h

/-- Witness for C10 at the fixture: the overwrite-throwing `setPID 9` on a
builder with pid 5 and the `UnknownAttribute`-throwing `addAttribute 99`
both leave their builder exactly as it was. -/
theorem C10_failing_ops_atomic_witness :
    (bSet5.setPID 9).2 = bSet5 ∧ (bC1.addAttribute 99).2 = bC1 :=
  ⟨(C10_failing_ops_atomic bSet5 9 0 (BuilderError.OverwriteError 5 9)
      (BuilderError.UnknownAttribute 0)).1 rfl,
   (C10_failing_ops_atomic bC1 0 99 (BuilderError.OverwriteError 0 0)
      (BuilderError.UnknownAttribute 99)).2 rfl⟩

/-- C6: `getUnusedAttributes` yields exactly the collected AIDs whose
dimension the resolved matrix does not declare, in collection order; with
no pid set, or a pid that resolves to no matrix, it yields all collected
AIDs in collection order. -/
theorem C6_getUnusedAttributes_complement (b : MatrixEntityBuilder) :
    (∀ p m, b.pid = some p → b.info.getMatrixForEntity p = some m →
      b.getUnusedAttributes =
        (b.dimensionIdToAttribute.filter
          (fun e => ! m.hasDimension e.1)).map (fun e => e.2)) ∧
    (b.pid = none →
      b.getUnusedAttributes = b.dimensionIdToAttribute.map (fun e => e.2)) ∧
    (∀ p, b.pid = some p → b.info.getMatrixForEntity p = none →
      b.getUnusedAttributes = b.dimensionIdToAttribute.map (fun e => e.2)) := by
  refine ⟨?_, ?_, ?_⟩
  · intro p m hp hm
    simp [MatrixEntityBuilder.getUnusedAttributes, hp, hm]
  · intro hp
    simp [MatrixEntityBuilder.getUnusedAttributes, hp, Matrix.hasDimension]
  · intro p hp hm
    simp [MatrixEntityBuilder.getUnusedAttributes, hp, hm, Matrix.hasDimension]

/-- Witness for C6 at the fixture: with no pid set both collected AIDs
(10, 21) come back in collection order; with pid 1 only AID 42 — whose
dimension 7 the cone matrix lacks — comes back; pid 3 (no matrix) with no
collected attributes yields nothing. -/
theorem C6_getUnusedAttributes_complement_witness :
    bNoPid.getUnusedAttributes = [10, 21] ∧
    bMix.getUnusedAttributes = [42] ∧
    bPid3.getUnusedAttributes = [] :=
  have h1 := (C6_getUnusedAttributes_complement bNoPid).2.1 rfl
  have h2 := (C6_getUnusedAttributes_complement bMix).1 1 coneMatrix rfl rfl
  have h3 := (C6_getUnusedAttributes_complement bPid3).2.2 3 rfl rfl
  ⟨h1.trans rfl, h2.trans rfl, h3.trans rfl⟩

theorem lookup_map_replace (t : ValidChildTensor) (k : KEY)
    (p : ValidChildPredicate) (h : (t.lookup k).isSome) :
    (t.map (fun e => if e.1 = k then (k, p) else e)).lookup k = some p := by
  induction t with
  | nil => simp [List.lookup] at h
  | cons e ts ih =>
    obtain ⟨k1, p1⟩ := e
    by_cases hk : k1 = k
    · subst hk
      rw [List.map_cons, if_pos rfl]
      simp [List.lookup]
    · have hk' : k ≠ k1 := fun hx => hk hx.symm
      rw [lookup_cons_ne _ _ _ _ hk'] at h
      rw [List.map_cons, if_neg hk, lookup_cons_ne _ _ _ _ hk']
      exact ih h

theorem lookup_map_replace_ne (t : ValidChildTensor) (k a : KEY)
    (p : ValidChildPredicate) (h : a ≠ k) :
    (t.map (fun e => if e.1 = k then (k, p) else e)).lookup a = t.lookup a := by
  induction t with
  | nil => rfl
  | cons e ts ih =>
    obtain ⟨k1, p1⟩ := e
    by_cases hk : k1 = k
    · subst hk
      rw [List.map_cons, if_pos rfl]
      rw [lookup_cons_ne _ _ _ _ h, lookup_cons_ne _ _ _ _ h]
      exact ih
    · by_cases ha : a = k1
      · subst ha
        rw [List.map_cons, if_neg hk]
        simp [List.lookup]
      · rw [List.map_cons, if_neg hk]
        rw [lookup_cons_ne _ _ _ _ ha, lookup_cons_ne _ _ _ _ ha]
        exact ih

theorem tensorSet_lookup_self (t : ValidChildTensor) (k : KEY)
    (p : ValidChildPredicate) : (tensorSet t k p).lookup k = some p := by
  cases ho : t.lookup k with
  | none =>
    unfold tensorSet
    rw [ho]
    simp only [Option.isSome_none, Bool.false_eq_true, if_false]
    exact lookup_append_self _ _ _ ho
  | some q =>
    unfold tensorSet
    rw [ho]
    simp only [Option.isSome_some, if_true]
    exact lookup_map_replace _ _ _ (by rw [ho]; rfl)

theorem tensorSet_lookup_ne (t : ValidChildTensor) (k a : KEY)
    (p : ValidChildPredicate) (h : a ≠ k) :
    (tensorSet t k p).lookup a = t.lookup a := by
  unfold tensorSet
  split
  · exact lookup_map_replace_ne _ _ _ _ h
  · exact lookup_append_ne _ _ _ _ h

theorem factory_foldl_values (rules : List Rule) (t : ValidChildTensor)
    (h : ∀ k p, t.lookup k = some p → ∀ c, p c = false) :
    ∀ k p, (rules.foldl
        (fun t rule => tensorSet t rule.pkey (rulePredicate rule)) t).lookup k =
          some p →
      ∀ c, p c = false := by
  induction rules generalizing t with
  | nil => simpa using h
  | cons r rs ih =>
    simp only [List.foldl_cons]
    apply ih
    intro k p hk c
    by_cases hkey : k = r.pkey
    · subst hkey
      rw [tensorSet_lookup_self] at hk
      cases hk
      rfl
    · rw [tensorSet_lookup_ne _ _ _ _ hkey] at hk
      exact h _ _ hk c

theorem factory_foldl_preserves (rules : List Rule) (t : ValidChildTensor)
    (k : KEY) (h : (t.lookup k).isSome) :
    ((rules.foldl
        (fun t rule => tensorSet t rule.pkey (rulePredicate rule)) t).lookup
      k).isSome := by
  induction rules generalizing t with
  | nil => simpa using h
  | cons r rs ih =>
    simp only [List.foldl_cons]
    apply ih
    by_cases hkey : k = r.pkey
    · subst hkey
      rw [tensorSet_lookup_self]
      rfl
    · rw [tensorSet_lookup_ne _ _ _ _ hkey]
      exact h

theorem factory_foldl_mem (rules : List Rule) (t : ValidChildTensor) :
    ∀ r ∈ rules,
      ((rules.foldl
          (fun t rule => tensorSet t rule.pkey (rulePredicate rule)) t).lookup
        r.pkey).isSome := by
  induction rules generalizing t with
  | nil =>
    intro r hr
    cases hr
  | cons r0 rs ih =>
    intro r hr
    rcases List.mem_cons.mp hr with rfl | hr'
    · simp only [List.foldl_cons]
      apply factory_foldl_preserves
      rw [tensorSet_lookup_self]
      rfl
    · simp only [List.foldl_cons]
      exact ih _ _ hr'

theorem factory_foldl_absent (rules : List Rule) (t : ValidChildTensor)
    (k : KEY) (h : ∀ r ∈ rules, r.pkey ≠ k) :
    (rules.foldl
        (fun t rule => tensorSet t rule.pkey (rulePredicate rule)) t).lookup k =
      t.lookup k := by
  induction rules generalizing t with
  | nil => rfl
  | cons r0 rs ih =>
    simp only [List.foldl_cons]
    rw [ih _ (fun r hr => h r (List.mem_cons_of_mem _ hr))]
    exact tensorSet_lookup_ne _ _ _ _
      (fun hx => h r0 (List.mem_cons_self _ _) hx.symm)

/-- C5: the tensor built by `childTensorFactory` holds a predicate for
every rule's partial key, and every predicate installed anywhere in the
tensor returns `false` for every candidate child — the factory is
unimplemented and rejects all children at every constrained coordinate. -/
theorem C5_factory_rejects_all (rc : RuleConfig) :
    (∀ r ∈ rc.rules, ((childTensorFactory rc).lookup r.pkey).isSome) ∧
    (∀ k p, (childTensorFactory rc).lookup k = some p →
      ∀ child, p child = false) := by
  constructor
  · exact factory_foldl_mem rc.rules []
  · exact factory_foldl_values rc.rules []
      (by intro k p hp; simp [List.lookup] at hp)

/-- Witness for C5 at the fixture rule set: both partial keys "1:*" and
"2:0" carry a predicate, and the predicate stored at "1:*" rejects the
candidate child "9:0". -/
theorem C5_factory_rejects_all_witness :
    ((childTensorFactory rcW).lookup "1:*").isSome = true ∧
    ((childTensorFactory rcW).lookup "2:0").isSome = true ∧
    (fun _ => false : ValidChildPredicate) "9:0" = false :=
  ⟨(C5_factory_rejects_all rcW).1 (Rule.mk "1:*") (by decide),
   (C5_factory_rejects_all rcW).1 (Rule.mk "2:0") (by decide),
   (C5_factory_rejects_all rcW).2 "1:*" (fun _ => false) rfl "9:0"⟩

/-- C4: consulting the tensor built from a rule configuration, a candidate
child is legal at a coordinate only if every predicate the factory derives
from a rule targeting that coordinate accepts it (the AND across
overlapping rules holds degenerately, every installed predicate being
constant-false), and a coordinate targeted by no rule imposes no
constraint — consultation default-permits it. -/
theorem C4_child_legality (rc : RuleConfig) (k child : KEY) :
    (legalAt (childTensorFactory rc) k child = true →
      ∀ r ∈ rc.rules, r.pkey = k → rulePredicate r child = true) ∧
    ((∀ r ∈ rc.rules, r.pkey ≠ k) →
      legalAt (childTensorFactory rc) k child = true) := by
  constructor
  · intro hlegal r hr hk
    exfalso
    subst hk
    have hs := factory_foldl_mem rc.rules [] r hr
    obtain ⟨p, hp⟩ := Option.isSome_iff_exists.mp hs
    have hp' : (childTensorFactory rc).lookup r.pkey = some p := hp
    have hfalse := factory_foldl_values rc.rules []
      (by intro a q hq; simp [List.lookup] at hq) r.pkey p hp' child
    have hleg : legalAt (childTensorFactory rc) r.pkey child = p child := by
      simp [legalAt, hp']
    rw [hleg, hfalse] at hlegal
    cases hlegal
  · intro h
    have hnone : (childTensorFactory rc).lookup k = none :=
      (factory_foldl_absent rc.rules [] k h).trans rfl
    simp [legalAt, hnone]

/-- Witness for C4 at the fixture rule set: the unconstrained coordinate
"7:7" permits the child "9:0" by default, while the constrained coordinate
"1:*" rejects it. -/
theorem C4_child_legality_witness :
    legalAt (childTensorFactory rcW) "7:7" "9:0" = true ∧
    legalAt (childTensorFactory rcW) "1:*" "9:0" = false :=
  ⟨(C4_child_legality rcW "7:7" "9:0").2 (by decide), rfl⟩

theorem map_uid_filter (l : List ItemInstance) (u : UID) :
    (l.filter (fun item => item.uid != u)).map ItemInstance.uid =
      (l.map ItemInstance.uid).filter (fun x => x != u) := by
  induction l with
  | nil => rfl
  | cons i t ih =>
    rw [List.filter_cons, List.map_cons, List.filter_cons]
    cases hb : (i.uid != u) with
    | true => simp [hb, ih]
    | false => simp [hb, ih]

theorem filter_uid_length (l : List ItemInstance) (u : UID)
    (h : (l.map ItemInstance.uid).Nodup) :
    l.length ≤ (l.filter (fun item => item.uid != u)).length + 1 := by
  induction l with
  | nil => simp
  | cons i t ih =>
    rw [List.map_cons, List.nodup_cons] at h
    obtain ⟨hni, hnd⟩ := h
    by_cases hb : i.uid = u
    · have hall : t.filter (fun item => item.uid != u) = t :=
        List.filter_eq_self.mpr (fun a ha => by
          have hne : a.uid ≠ u := fun hx => hni
            (by rw [← hb] at hx; exact hx ▸ List.mem_map_of_mem ItemInstance.uid ha)
          simpa using hne)
      rw [List.filter_cons_of_neg (by simp [hb]), hall]
      simp
    · rw [List.filter_cons_of_pos (by simpa using hb)]
      simpa using Nat.succ_le_succ (ih hnd)

theorem map_replace_id (l : List ItemInstance) (item : ItemInstance)
    (h : item.uid ∉ l.map ItemInstance.uid) :
    l.map (fun it => if it.uid == item.uid then item else it) = l := by
  induction l with
  | nil => rfl
  | cons i t ih =>
    rw [List.map_cons] at h
    have h1 : item.uid ≠ i.uid := fun hx => h (hx ▸ List.mem_cons_self _ _)
    have hcond : (i.uid == item.uid) = false :=
      beq_eq_false_iff_ne.mpr (fun hx => h1 hx.symm)
    simp only [List.map_cons, hcond, Bool.false_eq_true, if_false]
    rw [ih (fun hm => h (List.mem_cons_of_mem _ hm))]

/-- C7: `removeFromCart` yields an item sequence from which every item with
the given uid is excluded, otherwise identical in order (its uid list is
the original uid list with the target uid filtered out); removing a uid not
present leaves the sequence identical; and under the uid-uniqueness
invariant at most one item is removed. -/
theorem C7_removeFromCart_excludes (cart : Cart) (uid : UID) :
    (∀ item ∈ (removeFromCart cart uid).items, item.uid ≠ uid) ∧
    ((removeFromCart cart uid).items.map ItemInstance.uid =
      (cart.items.map ItemInstance.uid).filter (fun x => x != uid)) ∧
    (uid ∉ cart.items.map ItemInstance.uid →
      (removeFromCart cart uid).items = cart.items) ∧
    ((cart.items.map ItemInstance.uid).Nodup →
      cart.items.length ≤ (removeFromCart cart uid).items.length + 1) := by
  refine ⟨?_, map_uid_filter _ _, ?_, filter_uid_length _ _⟩
  · intro item hmem
    have := (List.mem_filter.mp hmem).2
    simpa using this
  · intro h
    exact List.filter_eq_self.mpr (fun a ha => by
      have hne : a.uid ≠ uid := fun hx =>
        h (hx ▸ List.mem_map_of_mem ItemInstance.uid ha)
      simpa using hne)

/-- Witness for C7 at the fixture cart [7, 8]: removing uid 8 leaves the
uid sequence [7] and the surviving item 7 indeed lacks uid 8; removing the
absent uid 9 leaves the item sequence identical; the unique-uid cart loses
at most one item. -/
theorem C7_removeFromCart_excludes_witness :
    (removeFromCart cartW 8).items.map ItemInstance.uid = [7] ∧
    (removeFromCart cartW 9).items = cartW.items ∧
    cartW.items.length ≤ (removeFromCart cartW 8).items.length + 1 ∧
    item7.uid ≠ 8 :=
  have h8 := C7_removeFromCart_excludes cartW 8
  have h9 := C7_removeFromCart_excludes cartW 9
  ⟨h8.2.1.trans rfl, h9.2.2.1 (by decide), h8.2.2.2 (by decide),
   h8.1 item7 (List.Mem.head _)⟩

/-- C8 counterexample: at the concrete cart [7, 8], handing `replaceInCart`
an item with the absent uid 9 — and `removeFromCart` the absent uid 9 —
returns the cart unchanged; the operations (whose declared return type is a
plain `Cart`, with no failure channel) just return the cart without
signalling, refuting the claim that the `NotFound` failure is surfaced. -/
theorem C8_notfound_surfaced_counterexample :
    replaceInCart cartW item9 = cartW ∧ removeFromCart cartW 9 = cartW := by
  constructor <;> rfl

/-- C8 amended: `replaceInCart` given an item whose uid no cart item
shares, and `removeFromCart` given a uid no cart item carries, return the
cart with its item sequence unchanged — the `NotFound` condition is a
silent no-op, not a surfaced failure. -/
theorem C8_notfound_silent_noop (cart : Cart) (item : ItemInstance)
    (u : UID) (h1 : item.uid ∉ cart.items.map ItemInstance.uid)
    (h2 : u ∉ cart.items.map ItemInstance.uid) :
    (replaceInCart cart item).items = cart.items ∧
    (removeFromCart cart u).items = cart.items := by
  refine ⟨map_replace_id _ _ h1, List.filter_eq_self.mpr ?_⟩
  intro a ha
  have hne : a.uid ≠ u := fun hx =>
    h2 (hx ▸ List.mem_map_of_mem ItemInstance.uid ha)
  simpa using hne

/-- Witness for the amended C8 at the fixture cart [7, 8] and the absent
uid 9: both operations hand back the item sequence unchanged. -/
theorem C8_notfound_silent_noop_witness :
    (replaceInCart cartW item9).items = cartW.items ∧
    (removeFromCart cartW 9).items = cartW.items :=
  C8_notfound_silent_noop cartW item9 9 (by decide) (by decide)

end PrixFixe
